import Mathlib

/-!
Shallow embedding of the error subsystem of the goa HTTP package
(src/http/error.go): error classes, structured error responses, the
validation helpers and the merge algorithm, together with theorems
checking the specified behaviour.

Modelling conventions:
* Go dynamic values (`interface` arguments) are modelled by the
  inductive `GoValue`, whose constructors record which branch of the
  runtime type dispatch the value takes (string, error, Stringer,
  anything else) along with the textual forms the code can extract.
* The random identifier produced by `newErrorID` is modelled as an
  explicit extra input of each error-class invocation, since it comes
  from a random source outside the pure computation.
* Every metadata map built by this file's Go code is a single-key map
  (`NewErrorClass` makes one map per key/value pair, and `MergeErrors`
  re-wraps each entry of the second error's metadata as a fresh
  single-key map), so a metadata entry is embedded as a key/value pair.
-/

namespace Goa

/-- Dynamic Go value passed through an interface-typed parameter: a
string, a value implementing the `error` interface, a value implementing
`fmt.Stringer`, or any other value, each carrying the textual form the
formatting verbs can extract from it. -/
inductive GoValue where
  | str (s : String)
  | goError (msg : String)
  | stringer (s : String)
  | other (text : String)
deriving DecidableEq, Repr

/-- Result of `fmt.Sprintf` with the `%v` verb on a dynamic value: the
`fmt` package calls `Error()` on errors and `String()` on Stringers, and
renders any other value by its default textual form. -/
def formatV : GoValue → String
  | .str s => s
  | .goError m => m
  | .stringer s => s
  | .other t => t

/-- Result of `fmt.Sprintf` with the `%#v` verb on a dynamic value: a Go
string is rendered as a double-quoted literal (the inputs considered here
need no escaping); other values are abstracted by their textual form. -/
def formatSharpV : GoValue → String
  | .str s => "\"" ++ s ++ "\""
  | .goError m => m
  | .stringer s => s
  | .other t => t

/-- ErrorResponse contains the details of an error response
(src/http/error.go, lines 77-88). `Meta` is the ordered list of
single-key metadata maps, each embedded as a key/value pair. -/
structure ErrorResponse where
  id : String
  code : String
  status : Int
  detail : String
  meta : List (String × GoValue)
deriving DecidableEq, Repr

/-- Go type switch on the `message` argument of an error-class invocation
(src/http/error.go, lines 100-109): a string is used as is, an error
contributes its `Error()` text, a Stringer its `String()` text, and any
other value its `%v` form. -/
def coerceMessage : GoValue → String
  | .str s => s
  | .goError m => m
  | .stringer s => s
  | .other t => t

/-- Metadata construction loop of an error-class invocation
(src/http/error.go, lines 110-118): the key/value list is consumed two at
a time, each pair becoming one single-key map whose key is the `%v` form
of the key; a trailing unpaired key is paired with the sentinel value
`"MISSING"`. -/
def buildMeta : List GoValue → List (String × GoValue)
  | [] => []
  | [k] => [(formatV k, GoValue.str "MISSING")]
  | k :: v :: rest => (formatV k, v) :: buildMeta rest

/-- NewErrorClass creates a new error class (src/http/error.go, lines
97-121). The returned factory takes, besides the Go arguments, the
identifier produced by `newErrorID` during the invocation, modelled as an
explicit input because it comes from the random source. -/
def NewErrorClass (code : String) (status : Int) :
    String → GoValue → List GoValue → ErrorResponse :=
  fun id message keyvals =>
    { id := id, code := code, status := status,
      detail := coerceMessage message, meta := buildMeta keyvals }

/-- ErrBadRequest is a generic bad request error class. -/
def ErrBadRequest : String → GoValue → List GoValue → ErrorResponse :=
  NewErrorClass "bad_request" 400

/-- ErrInvalidRequest is the class of errors produced when a request
parameter or payload fails to validate. -/
def ErrInvalidRequest : String → GoValue → List GoValue → ErrorResponse :=
  NewErrorClass "invalid_request" 400

/-- ErrNotFound is the class of errors returned to requests that match no
registered handler. -/
def ErrNotFound : String → GoValue → List GoValue → ErrorResponse :=
  NewErrorClass "not_found" 404

/-- ErrInternal is the class of error used for uncaught errors. -/
def ErrInternal : String → GoValue → List GoValue → ErrorResponse :=
  NewErrorClass "internal" 500

/-- Go `error` value as seen by `MergeErrors` and `asErrorResponse`: either
a structured `*ErrorResponse` or any other error carrying its `Error()`
text. -/
inductive GoError where
  | resp (e : ErrorResponse)
  | plain (msg : String)
deriving DecidableEq, Repr

/-- MissingParamError is the error produced for requests missing path or
querystring parameters (src/http/error.go, lines 137-140); the first
argument is the identifier generated for the occurrence. -/
def MissingParamError (id name : String) : GoError :=
  .resp (ErrInvalidRequest id
    (.str ("missing required parameter " ++ formatSharpV (.str name)))
    [.str "name", .str name])

/-- InvalidParamTypeError is the error produced when the type of a
parameter does not match the type defined in the design
(src/http/error.go, lines 130-133); the first argument is the identifier
generated for the occurrence. -/
def InvalidParamTypeError (id name : String) (val : GoValue) (expected : String) : GoError :=
  .resp (ErrInvalidRequest id
    (.str ("invalid value " ++ formatSharpV val ++ " for parameter " ++
      formatSharpV (.str name) ++ ", must be a " ++ expected))
    [.str "param", .str name, .str "value", val, .str "expected", .str expected])

/-- asErrorResponse promotes an arbitrary error to a structured one
(src/http/error.go, lines 278-284): a `*ErrorResponse` passes through,
anything else becomes a status-500 `internal_error` whose detail is the
error's text. The remaining fields keep Go's zero values: empty id, nil
metadata. -/
def asErrorResponse : GoError → ErrorResponse
  | .resp e => e
  | .plain msg =>
    { id := "", code := "internal_error", status := 500, detail := msg, meta := [] }

/-- Both-arguments-present branch of MergeErrors (src/http/error.go, lines
256-275): promote both sides, escalate to 500/"internal_error" if either
side is a 500, report any status or code disagreement as
400/"bad_request", then join details with "; " and append the second
error's metadata entries, each re-wrapped as its own single-key map. -/
def mergeBoth (err oth : GoError) : ErrorResponse :=
  let e := asErrorResponse err
  let o := asErrorResponse oth
  let e1 :=
    if e.status = 500 ∨ o.status = 500 then
      if e.status ≠ 500 then { e with status := 500, code := "internal_error" } else e
    else if e.status ≠ o.status ∨ e.code ≠ o.code then
      { e with status := 400, code := "bad_request" }
    else e
  { e1 with detail := e1.detail ++ "; " ++ o.detail, meta := e1.meta ++ o.meta }

/-- MergeErrors updates an error by merging another into it
(src/http/error.go, lines 246-276). A nil side short-circuits to the
promotion of the other side; nil is returned only for two nil inputs. -/
def MergeErrors : Option GoError → Option GoError → Option GoError
  | none, none => none
  | none, some o => some (.resp (asErrorResponse o))
  | some e, none => some (.resp (asErrorResponse e))
  | some e, some o => some (.resp (mergeBoth e o))

/-- Helper: the value mergeBoth computes when the first side is already a
500, spelled out field by field. -/
theorem mergeBoth_first_500 (a b : GoError)
    (h : (asErrorResponse a).status = 500) :
    mergeBoth a b =
      { asErrorResponse a with
        detail := (asErrorResponse a).detail ++ "; " ++ (asErrorResponse b).detail,
        meta := (asErrorResponse a).meta ++ (asErrorResponse b).meta } := by
  simp only [mergeBoth, if_pos (Or.inl h), if_neg (not_not_intro h)]

/-- Helper: the value mergeBoth computes when only the second side is a
500, spelled out field by field. -/
theorem mergeBoth_second_500 (a b : GoError)
    (hne : (asErrorResponse a).status ≠ 500)
    (h : (asErrorResponse b).status = 500) :
    mergeBoth a b =
      { asErrorResponse a with
        status := 500, code := "internal_error",
        detail := (asErrorResponse a).detail ++ "; " ++ (asErrorResponse b).detail,
        meta := (asErrorResponse a).meta ++ (asErrorResponse b).meta } := by
  simp only [mergeBoth, if_pos (Or.inr h), if_pos hne]

/-- Helper: the value mergeBoth computes when neither side is a 500 and
the two sides disagree on status or code. -/
theorem mergeBoth_mismatch (a b : GoError)
    (ha : (asErrorResponse a).status ≠ 500) (hb : (asErrorResponse b).status ≠ 500)
    (hd : (asErrorResponse a).status ≠ (asErrorResponse b).status ∨
          (asErrorResponse a).code ≠ (asErrorResponse b).code) :
    mergeBoth a b =
      { asErrorResponse a with
        status := 400, code := "bad_request",
        detail := (asErrorResponse a).detail ++ "; " ++ (asErrorResponse b).detail,
        meta := (asErrorResponse a).meta ++ (asErrorResponse b).meta } := by
  simp only [mergeBoth, if_neg (not_or.mpr ⟨ha, hb⟩), if_pos hd]

/-- Helper: the value mergeBoth computes when neither side is a 500 and
the two sides agree on both status and code. -/
theorem mergeBoth_agree (a b : GoError)
    (ha : (asErrorResponse a).status ≠ 500) (hb : (asErrorResponse b).status ≠ 500)
    (hs : (asErrorResponse a).status = (asErrorResponse b).status)
    (hc : (asErrorResponse a).code = (asErrorResponse b).code) :
    mergeBoth a b =
      { asErrorResponse a with
        detail := (asErrorResponse a).detail ++ "; " ++ (asErrorResponse b).detail,
        meta := (asErrorResponse a).meta ++ (asErrorResponse b).meta } := by
  simp only [mergeBoth, if_neg (not_or.mpr ⟨ha, hb⟩),
    if_neg (not_or.mpr ⟨not_not_intro hs, not_not_intro hc⟩)]

/-- Helper: buildMeta produces one entry for every two input values,
rounding up for a trailing unpaired key. -/
theorem buildMeta_length (l : List GoValue) :
    (buildMeta l).length = (l.length + 1) / 2 := by
  induction l using buildMeta.induct with
  | case1 => rfl
  | case2 k => simp [buildMeta]
  | case3 k v rest ih =>
    simp only [buildMeta, List.length_cons, ih]
    omega

/-- Helper: the i-th entry of buildMeta pairs the value at position 2i+1
with the formatted key at position 2i of the input list. -/
theorem buildMeta_get2 (l : List GoValue) :
    ∀ (i : Nat) (k v : GoValue), l.get? (2 * i) = some k →
      l.get? (2 * i + 1) = some v →
      (buildMeta l).get? i = some (formatV k, v) := by
  induction l using buildMeta.induct with
  | case1 =>
    intro i k v h1 _
    simp at h1
  | case2 k0 =>
    intro i k v _ h2
    rcases i with _ | j
    · simp at h2
    · rw [show 2 * (j + 1) + 1 = (2 * j + 2) + 1 by ring] at h2
      simp [List.get?] at h2
  | case3 k0 v0 rest ih =>
    intro i k v h1 h2
    rcases i with _ | j
    · simp only [Nat.mul_zero, List.get?] at h1 h2
      cases h1
      cases h2
      rfl
    · rw [show 2 * (j + 1) = (2 * j + 1) + 1 by ring] at h1
      rw [show 2 * (j + 1) + 1 = ((2 * j + 1) + 1) + 1 by ring] at h2
      simp only [List.get?] at h1 h2
      simpa only [buildMeta, List.get?] using ih j k v h1 h2

/-- Helper: on an odd-length input the last entry of buildMeta pairs the
input's last key with the sentinel "MISSING". -/
theorem buildMeta_odd_last (l : List GoValue) (k : GoValue)
    (h : l.length % 2 = 1) (hk : l.getLast? = some k) :
    (buildMeta l).getLast? = some (formatV k, GoValue.str "MISSING") := by
  induction l using buildMeta.induct with
  | case1 => simp at h
  | case2 k0 =>
    simp only [List.getLast?_singleton, Option.some.injEq] at hk
    subst hk
    rfl
  | case3 k0 v0 rest ih =>
    have hr : rest.length % 2 = 1 := by
      simp only [List.length_cons] at h
      omega
    rcases rest with _ | ⟨r, rs⟩
    · simp at hr
    · rw [List.getLast?_cons_cons, List.getLast?_cons_cons] at hk
      have hlast := ih hr hk
      rcases hbm : buildMeta (r :: rs) with _ | ⟨c, cs⟩
      · rw [hbm] at hlast
        simp at hlast
      · rw [hbm] at hlast
        simpa only [buildMeta, hbm, List.getLast?_cons_cons] using hlast

/-- C1: merging two present errors where at least one promoted side has
status 500 yields status 500; the code becomes "internal_error" exactly
when the first side was not already a 500 (otherwise it is kept), and the
result is the first error enriched with the second's detail and metadata:
its id is the first side's, its detail joins both details with "; ", and
its metadata is the first side's followed by the second's. -/
theorem merge_escalates_500 (a b : GoError)
    (h : (asErrorResponse a).status = 500 ∨ (asErrorResponse b).status = 500) :
    MergeErrors (some a) (some b) = some (.resp (mergeBoth a b)) ∧
    (mergeBoth a b).status = 500 ∧
    ((asErrorResponse a).status ≠ 500 → (mergeBoth a b).code = "internal_error") ∧
    ((asErrorResponse a).status = 500 → (mergeBoth a b).code = (asErrorResponse a).code) ∧
    (mergeBoth a b).id = (asErrorResponse a).id ∧
    (mergeBoth a b).detail =
      (asErrorResponse a).detail ++ "; " ++ (asErrorResponse b).detail ∧
    (mergeBoth a b).meta = (asErrorResponse a).meta ++ (asErrorResponse b).meta := by
  refine ⟨rfl, ?_⟩
  by_cases h5 : (asErrorResponse a).status = 500
  · rw [mergeBoth_first_500 a b h5]
    exact ⟨h5, fun hne => absurd h5 hne, fun _ => rfl, rfl, rfl, rfl⟩
  · have hb : (asErrorResponse b).status = 500 := h.resolve_left h5
    rw [mergeBoth_second_500 a b h5 hb]
    exact ⟨rfl, fun _ => rfl, fun he => absurd he h5, rfl, rfl, rfl⟩

/-- Witness for C1 at a 400 "invalid_request" error merged with a plain
failure, which promotes to a 500. -/
theorem merge_escalates_500_witness :
    (mergeBoth (GoError.resp (ErrInvalidRequest "A" (GoValue.str "m") []))
      (GoError.plain "boom")).status = 500 ∧
    (mergeBoth (GoError.resp (ErrInvalidRequest "A" (GoValue.str "m") []))
      (GoError.plain "boom")).code = "internal_error" := by
  have h := merge_escalates_500
    (GoError.resp (ErrInvalidRequest "A" (GoValue.str "m") []))
    (GoError.plain "boom") (Or.inr rfl)
  exact ⟨h.2.1, h.2.2.1 (by decide)⟩

/-- C2: merging two present errors where neither promoted side has status
500 but the sides disagree on status or on code yields status 400 and
code "bad_request". -/
theorem merge_mismatch_400 (a b : GoError)
    (ha : (asErrorResponse a).status ≠ 500) (hb : (asErrorResponse b).status ≠ 500)
    (hd : (asErrorResponse a).status ≠ (asErrorResponse b).status ∨
          (asErrorResponse a).code ≠ (asErrorResponse b).code) :
    MergeErrors (some a) (some b) = some (.resp (mergeBoth a b)) ∧
    (mergeBoth a b).status = 400 ∧ (mergeBoth a b).code = "bad_request" := by
  refine ⟨rfl, ?_, ?_⟩ <;> rw [mergeBoth_mismatch a b ha hb hd]

/-- Witness for C2 at a 400 "invalid_request" error merged with a 404
"not_found" error. -/
theorem merge_mismatch_400_witness :
    (mergeBoth (GoError.resp (ErrInvalidRequest "A" (GoValue.str "m") []))
      (GoError.resp (ErrNotFound "B" (GoValue.str "n") []))).status = 400 ∧
    (mergeBoth (GoError.resp (ErrInvalidRequest "A" (GoValue.str "m") []))
      (GoError.resp (ErrNotFound "B" (GoValue.str "n") []))).code = "bad_request" :=
  (merge_mismatch_400 (GoError.resp (ErrInvalidRequest "A" (GoValue.str "m") []))
    (GoError.resp (ErrNotFound "B" (GoValue.str "n") []))
    (by decide) (by decide) (Or.inl (by decide))).2

/-- C3: merging two structured errors with identical status and identical
code, neither a 500, keeps status and code unchanged, joins the details
with "; " and appends every metadata entry of the second after those of
the first in order, duplicate keys included. -/
theorem merge_same_class (a b : ErrorResponse)
    (hs : a.status = b.status) (hc : a.code = b.code) (h5 : a.status ≠ 500) :
    MergeErrors (some (GoError.resp a)) (some (GoError.resp b)) =
      some (GoError.resp
        { a with
          detail := a.detail ++ "; " ++ b.detail,
          meta := a.meta ++ b.meta }) := by
  have hb5 : b.status ≠ 500 := hs ▸ h5
  show some (GoError.resp (mergeBoth (GoError.resp a) (GoError.resp b))) = _
  rw [mergeBoth_agree (GoError.resp a) (GoError.resp b) h5 hb5 hs hc]
  exact rfl

/-- Witness for C3 at two 404 "X" errors carrying the same metadata key,
showing the duplicate key is preserved. -/
theorem merge_same_class_witness :
    MergeErrors (some (GoError.resp ⟨"A", "X", 404, "d1", [("k", GoValue.str "1")]⟩))
      (some (GoError.resp ⟨"B", "X", 404, "d2", [("k", GoValue.str "2")]⟩)) =
      some (GoError.resp
        ⟨"A", "X", 404, "d1; d2", [("k", GoValue.str "1"), ("k", GoValue.str "2")]⟩) :=
  merge_same_class ⟨"A", "X", 404, "d1", [("k", GoValue.str "1")]⟩
    ⟨"B", "X", 404, "d2", [("k", GoValue.str "2")]⟩ rfl rfl (by decide)

/-- C4 counterexample: promoting a plain failure leaves the id field at
Go's zero value, the empty string, so no fresh non-empty id is generated
by promotion. -/
theorem promote_id_empty_cex :
    (asErrorResponse (GoError.plain "boom")).id = "" := rfl

/-- C4 (amended): promoting a failure that is not already a structured
error yields a structured error with status 500, code "internal_error",
detail equal to the failure's textual message, an empty id and empty
metadata; no id is generated during promotion. -/
theorem promote_plain (msg : String) :
    asErrorResponse (GoError.plain msg) =
      { id := "", code := "internal_error", status := 500,
        detail := msg, meta := [] } := rfl

/-- C5: MergeErrors is total over optional errors: two nil sides give
nil, a single present error is promoted regardless of the side it is on,
with both one-sided merges equal, and nil comes back only when both sides
are nil. -/
theorem mergeErrors_total :
    MergeErrors none none = none ∧
    (∀ e : GoError,
      MergeErrors none (some e) = some (GoError.resp (asErrorResponse e)) ∧
      MergeErrors (some e) none = some (GoError.resp (asErrorResponse e))) ∧
    (∀ a b : Option GoError, MergeErrors a b = none → a = none ∧ b = none) := by
  refine ⟨rfl, fun e => ⟨rfl, rfl⟩, ?_⟩
  intro a b h
  rcases a with _ | e <;> rcases b with _ | o
  · exact ⟨rfl, rfl⟩
  · simp [MergeErrors] at h
  · simp [MergeErrors] at h
  · simp [MergeErrors] at h

/-- Witness for C5: the nil-only-from-nils implication applied at two nil
sides. -/
theorem mergeErrors_total_witness :
    (none : Option GoError) = none ∧ (none : Option GoError) = none :=
  mergeErrors_total.2.2 none none rfl

/-- C6: the merged result of two present errors keeps the id of the first
side after promotion, in every branch of the merge; a one-sided merge
likewise returns the promoted first error with its id untouched. -/
theorem merge_retains_id (e o : GoError) :
    MergeErrors (some e) (some o) = some (.resp (mergeBoth e o)) ∧
    (mergeBoth e o).id = (asErrorResponse e).id ∧
    MergeErrors (some e) none = some (.resp (asErrorResponse e)) := by
  refine ⟨rfl, ?_, rfl⟩
  by_cases h5 : (asErrorResponse e).status = 500
  · rw [mergeBoth_first_500 e o h5]
  · by_cases ho : (asErrorResponse o).status = 500
    · rw [mergeBoth_second_500 e o h5 ho]
    · by_cases hd : (asErrorResponse e).status ≠ (asErrorResponse o).status ∨
        (asErrorResponse e).code ≠ (asErrorResponse o).code
      · rw [mergeBoth_mismatch e o h5 ho hd]
      · push_neg at hd
        rw [mergeBoth_agree e o h5 ho hd.1 hd.2]

/-- C7: invoking an error class with an odd-length key/value list always
succeeds and pairs the final key with the sentinel value "MISSING" in the
last metadata entry. -/
theorem odd_keyvals_pair_missing (code : String) (status : Int) (id : String)
    (msg : GoValue) (kvs : List GoValue) (k : GoValue)
    (h : kvs.length % 2 = 1) (hk : kvs.getLast? = some k) :
    (NewErrorClass code status id msg kvs).meta.getLast? =
      some (formatV k, GoValue.str "MISSING") :=
  buildMeta_odd_last kvs k h hk

/-- Witness for C7 at a three-element key/value list. -/
theorem odd_keyvals_pair_missing_witness :
    (NewErrorClass "c" 400 "I" (GoValue.str "m")
      [GoValue.str "p", GoValue.str "v", GoValue.str "q"]).meta.getLast? =
      some ("q", GoValue.str "MISSING") :=
  odd_keyvals_pair_missing "c" 400 "I" (GoValue.str "m")
    [GoValue.str "p", GoValue.str "v", GoValue.str "q"] (GoValue.str "q") rfl rfl

/-- C8: an invocation of a class built by NewErrorClass returns a
structured error carrying the class's code and status and the supplied
id; its detail is the message coerced with the precedence string, then
error text, then Stringer text, then default formatted form; and its
metadata holds one single-key entry per key/value pair of the input, in
input order, with one entry for every two input values. -/
theorem errorClass_builds (code : String) (status : Int) (id : String)
    (msg : GoValue) (kvs : List GoValue) :
    (NewErrorClass code status id msg kvs).id = id ∧
    (NewErrorClass code status id msg kvs).code = code ∧
    (NewErrorClass code status id msg kvs).status = status ∧
    (∀ s, msg = GoValue.str s → (NewErrorClass code status id msg kvs).detail = s) ∧
    (∀ s, msg = GoValue.goError s → (NewErrorClass code status id msg kvs).detail = s) ∧
    (∀ s, msg = GoValue.stringer s → (NewErrorClass code status id msg kvs).detail = s) ∧
    (∀ s, msg = GoValue.other s → (NewErrorClass code status id msg kvs).detail = s) ∧
    (NewErrorClass code status id msg kvs).meta.length = (kvs.length + 1) / 2 ∧
    (∀ (i : Nat) (k v : GoValue), kvs.get? (2 * i) = some k →
      kvs.get? (2 * i + 1) = some v →
      (NewErrorClass code status id msg kvs).meta.get? i = some (formatV k, v)) := by
  refine ⟨rfl, rfl, rfl, ?_, ?_, ?_, ?_, buildMeta_length kvs, buildMeta_get2 kvs⟩
  all_goals intro s hs
  all_goals subst hs
  all_goals rfl

/-- Witness for C8 at an error-typed message and one key/value pair. -/
theorem errorClass_builds_witness :
    (NewErrorClass "c" 418 "I" (GoValue.goError "boom")
      [GoValue.str "k", GoValue.str "v"]).detail = "boom" ∧
    (NewErrorClass "c" 418 "I" (GoValue.goError "boom")
      [GoValue.str "k", GoValue.str "v"]).meta.get? 0 =
      some ("k", GoValue.str "v") :=
  ⟨(errorClass_builds "c" 418 "I" (GoValue.goError "boom")
      [GoValue.str "k", GoValue.str "v"]).2.2.2.2.1 "boom" rfl,
   (errorClass_builds "c" 418 "I" (GoValue.goError "boom")
      [GoValue.str "k", GoValue.str "v"]).2.2.2.2.2.2.2.2 0
      (GoValue.str "k") (GoValue.str "v") rfl rfl⟩

/-- C9 counterexample: merging MissingParamError "id" with
InvalidParamTypeError "sort" "xx" "integer" yields metadata with four
entries, one per key/value pair of the two helpers, not two entries. -/
theorem merge_helpers_meta_four :
    MergeErrors (some (MissingParamError "A" "id"))
        (some (InvalidParamTypeError "B" "sort" (GoValue.str "xx") "integer")) =
      some (GoError.resp (mergeBoth (MissingParamError "A" "id")
        (InvalidParamTypeError "B" "sort" (GoValue.str "xx") "integer"))) ∧
    (mergeBoth (MissingParamError "A" "id")
      (InvalidParamTypeError "B" "sort" (GoValue.str "xx") "integer")).meta.length = 4 :=
  ⟨rfl, rfl⟩

/-- C9 (amended): merging the error of MissingParamError "id" with the
error of InvalidParamTypeError "sort" "xx" "integer" yields one
structured error with status 400, code "invalid_request", detail joining
both helper messages with "; ", and metadata of exactly four single-key
entries: the one pair from MissingParamError followed by the three pairs
from InvalidParamTypeError, in order. -/
theorem merge_missing_invalid (idA idB : String) :
    MergeErrors (some (MissingParamError idA "id"))
        (some (InvalidParamTypeError idB "sort" (GoValue.str "xx") "integer")) =
      some (GoError.resp
        { id := idA, code := "invalid_request", status := 400,
          detail := "missing required parameter \"id\"; invalid value \"xx\" for parameter \"sort\", must be a integer",
          meta := [("name", GoValue.str "id"), ("param", GoValue.str "sort"),
                   ("value", GoValue.str "xx"), ("expected", GoValue.str "integer")] }) := by
  rfl

/-- C10: when the first argument is a structured error already at status
500, the merged result keeps its code exactly as it was; the code is
rewritten to "internal_error" only when a non-500 first error is
escalated. -/
theorem merge_first_500_keeps_code (a : ErrorResponse) (b : GoError)
    (h : a.status = 500) :
    MergeErrors (some (GoError.resp a)) (some b) =
      some (.resp (mergeBoth (GoError.resp a) b)) ∧
    (mergeBoth (GoError.resp a) b).status = 500 ∧
    (mergeBoth (GoError.resp a) b).code = a.code := by
  refine ⟨rfl, ?_, ?_⟩
  · rw [mergeBoth_first_500 (GoError.resp a) b h]
    exact h
  · rw [mergeBoth_first_500 (GoError.resp a) b h]
    exact rfl

/-- Witness for C10 at an error of the pre-registered "internal" class,
whose code stays "internal" rather than becoming "internal_error". -/
theorem merge_first_500_keeps_code_witness :
    (mergeBoth (GoError.resp (ErrInternal "I" (GoValue.str "boom") []))
      (GoError.plain "x")).code = "internal" :=
  (merge_first_500_keeps_code (ErrInternal "I" (GoValue.str "boom") [])
    (GoError.plain "x") rfl).2.2

end Goa
